import Mathlib

/-!
Verification development for the Solteq Sund RPA driver
(`robot_framework/process.py` and
`robot_framework/sub_process/solteq_sund.py`).

Time is modelled in half-unit ticks: one tick is 0.5 time-units, the poll
interval of the wait loops (`time.sleep(0.5)`).  A poll at tick `t` happens at
real time `t * 0.5` after tick 0.  The external accessibility tree is an
oracle telling, for each control descriptor and each tick, whether a
freshly-resolved control for that descriptor passes the zero-wait existence
check `Exists(0, 0)` at that tick.
-/

namespace Solteq

/-- The search parameters of a control lookup: the keyword dictionary passed
to the control constructor, e.g. `[("AutomationId", "frmLogin")]`. -/
structure SearchParams where
  pairs : List (String × String)
deriving DecidableEq, Repr

/-- A control descriptor: control type (e.g. `WindowControl`), search
parameters and search depth. -/
structure Descriptor where
  control_type : String
  search_params : SearchParams
  search_depth : Nat
deriving DecidableEq, Repr

/-- A control object as constructed by `control_type(searchDepth=..., **search_params)`
at a given tick.  The tick records the moment of construction/resolution. -/
structure Control where
  desc : Descriptor
  madeAt : Nat
deriving DecidableEq, Repr

/-- The external accessibility tree over time: whether the descriptor
resolves to an existing control at a given tick. -/
def Tree : Type := Descriptor → Nat → Bool

/-- Models `control.Exists(0, 0)`: a single instantaneous existence check of
the control against the accessibility tree at the moment the control was
constructed, with zero internal wait. -/
def exists00 (tree : Tree) (c : Control) : Bool :=
  tree c.desc c.madeAt

/-- The poll interval of the wait loops: `time.sleep(0.5)`. -/
def pollInterval : ℚ := 1 / 2

/-- Real time of a tick: tick `t` is `t * 0.5` time-units after tick 0. -/
def tickTime (t : Nat) : ℚ := (t : ℚ) * pollInterval

/-- Outcome of the appearance-wait loop in `wait_for_control`. -/
inductive WaitOutcome where
  | found (t : Nat) (c : Control)
  | timedOut (t : Nat)
deriving DecidableEq, Repr

/-- The `while time.time() < end_time` loop of `wait_for_control`, by fuel:
the fuel is the number of remaining poll opportunities (`end_time` minus the
current tick).  Each iteration constructs the control at the current tick,
returns it if `Exists(0, 0)` holds, and otherwise sleeps one tick (0.5). -/
def waitLoopAux (tree : Tree) (d : Descriptor) : Nat → Nat → WaitOutcome
  | 0, tick => .timedOut tick
  | fuel + 1, tick =>
    if exists00 tree (Control.mk d tick) then .found tick (Control.mk d tick)
    else waitLoopAux tree d fuel (tick + 1)

/-- The appearance-wait loop from `end_time = time.time() + timeout` down:
polls at ticks `tick, tick+1, ...` strictly below `endTick`. -/
def waitLoop (tree : Tree) (d : Descriptor) (endTick tick : Nat) : WaitOutcome :=
  waitLoopAux tree d (endTick - tick) tick

/-- Outcome of the disappearance-wait loop in `wait_for_control_to_disappear`. -/
inductive DisappearOutcome where
  | gone (t : Nat)
  | timedOut (t : Nat)
deriving DecidableEq, Repr

/-- The `while` loop of `wait_for_control_to_disappear`: each iteration
constructs the control at the current tick and returns once `Exists(0, 0)`
fails; otherwise it sleeps one tick (0.5). -/
def disappearLoopAux (tree : Tree) (d : Descriptor) : Nat → Nat → DisappearOutcome
  | 0, tick => .timedOut tick
  | fuel + 1, tick =>
    if exists00 tree (Control.mk d tick) then disappearLoopAux tree d fuel (tick + 1)
    else .gone tick

/-- The disappearance-wait loop bounded by `endTick`. -/
def disappearLoop (tree : Tree) (d : Descriptor) (endTick tick : Nat) : DisappearOutcome :=
  disappearLoopAux tree d (endTick - tick) tick

/-- Python `repr` of a one-level string dictionary, as interpolated into the
error messages: `\x7b'AutomationId': 'frmLogin'\x7d`. -/
def paramsRepr (p : SearchParams) : String :=
  "\x7b" ++
    String.intercalate ", "
      (p.pairs.map (fun kv => "\x27" ++ kv.1 ++ "\x27: \x27" ++ kv.2 ++ "\x27")) ++
  "\x7d"

/-- The `TimeoutError` message of `wait_for_control`. -/
def notFoundMsg (p : SearchParams) : String :=
  "Control with parameters " ++ paramsRepr p ++ " was not found within the timeout period."

/-- The `TimeoutError` message of `wait_for_control_to_disappear`. -/
def notDisappearMsg (p : SearchParams) : String :=
  "Control with parameters " ++ paramsRepr p ++ " did not disappear within the timeout period."

/-- The exceptions raised by the driver: `TimeoutError` from the wait
primitives and `ValueError` from the journal verification. -/
inductive RunError where
  | timeoutError (msg : String)
  | valueError (msg : String)
deriving DecidableEq, Repr

/-- Models `SolteqSundApp.wait_for_control`: polls every 0.5 time-units (one tick)
until the descriptor resolves and `Exists(0, 0)` succeeds, returning the
resolved control and the tick of the successful poll; raises `TimeoutError`
once the current time reaches `end_time = start + timeout`.  `timeout` is in
time-units (seconds), hence `2 * timeout` poll opportunities. -/
def wait_for_control (tree : Tree) (t0 : Nat) (control_type : String)
    (search_params : SearchParams) (search_depth timeout : Nat) :
    Except RunError (Nat × Control) :=
  match waitLoop tree (Descriptor.mk control_type search_params search_depth)
      (t0 + 2 * timeout) t0 with
  | .found t c => .ok (t, c)
  | .timedOut _ => .error (.timeoutError (notFoundMsg search_params))

/-- Calls `wait_for_control` with the `timeout` argument omitted: the source's
default `timeout=30` applies. -/
def wait_for_control_default (tree : Tree) (t0 : Nat) (control_type : String)
    (search_params : SearchParams) (search_depth : Nat) :
    Except RunError (Nat × Control) :=
  wait_for_control tree t0 control_type search_params search_depth 30

/-- Models `SolteqSundApp.wait_for_control_to_disappear`: polls every 0.5 time-units
until `Exists(0, 0)` fails, returning `true`; raises `TimeoutError` once the
deadline is reached with every check still succeeding. -/
def wait_for_control_to_disappear (tree : Tree) (t0 : Nat) (control_type : String)
    (search_params : SearchParams) (search_depth timeout : Nat) :
    Except RunError (Nat × Bool) :=
  match disappearLoop tree (Descriptor.mk control_type search_params search_depth)
      (t0 + 2 * timeout) t0 with
  | .gone t => .ok (t, true)
  | .timedOut _ => .error (.timeoutError (notDisappearMsg search_params))

/-- Models `self.ssn.replace("-", "")`: the subject identifier with hyphens removed.
Python's `str.replace` with a one-character pattern and an empty replacement
deletes every occurrence of that character, i.e. filters it out. -/
def stripHyphens (s : String) : String :=
  String.mk (s.data.filter (fun ch => ch != '-'))

/-- Models `f"Udskrift af journal \x7bcurrent_date\x7d.pdf"`: the filename derived from
the current date (formatted `dd-mm-yyyy` by `strftime("%d-%m-%Y")`). -/
def journalFilename (current_date : String) : String :=
  "Udskrift af journal " ++ current_date ++ ".pdf"

/-- A row of the `DocumentStore` table (the columns the query touches). -/
structure DocumentStoreRow where
  DocumentId : Nat
  entityId : Nat
  OriginalFilename : String
  UniqueFilename : String
deriving DecidableEq, Repr

/-- A row of the `Child` table (the columns the query touches). -/
structure ChildRow where
  childId : Nat
  cpr : String
deriving DecidableEq, Repr

/-- A row of the `DocumentStoreStatus` table (the columns the query touches). -/
structure DocumentStoreStatusRow where
  DocumentId : Nat
  Document_HistoryId : Nat
  Documented : Int
  Decided : Int
  DocumentStoreStatusId : Nat
deriving DecidableEq, Repr

/-- The external relational store the verification query runs against. -/
structure Database where
  DocumentStore : List DocumentStoreRow
  Child : List ChildRow
  DocumentStoreStatus : List DocumentStoreStatusRow
deriving DecidableEq, Repr

/-- A row of the query's result set: the eight selected columns. -/
structure JournalQueryRow where
  DocumentId : Nat
  entityId : Nat
  OriginalFilename : String
  UniqueFilename : String
  Document_HistoryId : Nat
  Documented : Int
  Decided : Int
  DocumentStoreStatusId : Nat
deriving DecidableEq, Repr

/-- The `maxHistory` subquery: `SELECT DocumentId, MAX(Document_HistoryId)
FROM DocumentStoreStatus GROUP BY DocumentId`, looked up at one `DocumentId`
(an inner join, so a `DocumentId` with no status rows yields `none`). -/
def maxHistoryFor (db : Database) (docId : Nat) : Option Nat :=
  ((db.DocumentStoreStatus.filter (fun r => r.DocumentId == docId)).map
    (fun r => r.Document_HistoryId)).max?

/-- The result set of the verification query of `_is_journal_created`:
`DocumentStore` joined with `Child` on `childId = entityId`, with the
`maxHistory` subquery on `DocumentId`, and with `DocumentStoreStatus` on
`DocumentId` and the maximal `Document_HistoryId`, filtered by the `WHERE`
clause (`cpr`, `OriginalFilename`, `DocumentStoreStatusId = 1`) and ordered
by `Decided DESC`. -/
def runJournalQuery (db : Database) (cprValue filename : String) :
    List JournalQueryRow :=
  (db.DocumentStore.flatMap (fun ds =>
    db.Child.flatMap (fun c =>
      db.DocumentStoreStatus.filterMap (fun dss =>
        if c.childId = ds.entityId
            ∧ dss.DocumentId = ds.DocumentId
            ∧ maxHistoryFor db ds.DocumentId = some dss.Document_HistoryId
            ∧ c.cpr = cprValue
            ∧ ds.OriginalFilename = filename
            ∧ dss.DocumentStoreStatusId = 1 then
          some (JournalQueryRow.mk ds.DocumentId ds.entityId ds.OriginalFilename
            ds.UniqueFilename dss.Document_HistoryId dss.Documented dss.Decided
            dss.DocumentStoreStatusId)
        else none)))).mergeSort
    (fun a b => decide (b.Decided ≤ a.Decided))

/-- The part of the executed SQL text before the interpolated `cpr` value. -/
def queryPre : String :=
  "\n            SELECT\tds.DocumentId\n                    ,ds.entityId\n                    ,ds.OriginalFilename\n                    ,ds.UniqueFilename\n                    ,dss.Document_HistoryId\n                    ,dss.Documented\n                    ,dss.Decided\n                    ,dss.DocumentStoreStatusId\n            FROM DocumentStore ds\n            JOIN Child c ON c.childId = ds.entityId\n            JOIN (\n                SELECT DocumentId, MAX(Document_HistoryId) AS MaxDocument_HistoryId\n                FROM DocumentStoreStatus\n                GROUP BY DocumentId\n            ) maxHistory ON ds.DocumentId = maxHistory.DocumentId\n            JOIN DocumentStoreStatus dss ON ds.DocumentId = dss.DocumentId AND dss.Document_HistoryId = maxHistory.MaxDocument_HistoryId\n            WHERE\tc.cpr = \x27"

/-- The part of the executed SQL text between the interpolated `cpr` value
and the interpolated filename. -/
def queryMid : String :=
  "\x27\n                    AND ds.OriginalFilename = \x27"

/-- The part of the executed SQL text after the interpolated filename. -/
def querySuf : String :=
  "\x27\n                    AND dss.DocumentStoreStatusId = 1\n            ORDER BY Decided DESC\n            "

/-- The SQL text executed by `_is_journal_created`: an f-string interpolating
`self.ssn.replace("-", "")` and the date-derived filename directly into the
query, with no parameter binding. -/
def journalQueryText (ssn current_date : String) : String :=
  queryPre ++ stripHyphens ssn ++ queryMid ++ journalFilename current_date ++ querySuf

/-- Models `SolteqSundApp._is_journal_created`: runs the verification query and
returns `False` exactly when the result list is empty (`if not result`),
consuming nothing of the rows but their presence. -/
def _is_journal_created (db : Database) (ssn current_date : String) : Bool :=
  let rows := runJournalQuery db (stripHyphens ssn) (journalFilename current_date)
  if rows.isEmpty then false else true

/-- The `SolteqSundApp` object as built by `__init__`. -/
structure SolteqSundApp where
  app_path : String
  username : String
  password : String
  ssn : String
  connection_string : String
  app_window : Option Control
deriving DecidableEq, Repr

/-- An observable outward action of the driver: key/text input, focus,
clicks, waits on the accessibility tree, and the database query. -/
inductive Event where
  | sendKeys (keys : String)
  | setFocus (automationId : String)
  | waitFor (control_type : String) (search_params : SearchParams)
      (search_depth timeout : Nat)
  | waitGone (control_type : String) (search_params : SearchParams)
      (search_depth timeout : Nat)
  | click (automationId : String)
  | doubleClick
  | dbQuery (sql : String)
deriving DecidableEq, Repr

/-- Whether an event is the execution of a database query. -/
def Event.isDbQuery : Event → Bool
  | .dbQuery _ => true
  | _ => false

/-- Search parameters of the CPR search box wait in `open_patient`. -/
def cprBoxParams : SearchParams := SearchParams.mk [("AutomationId", "TextBoxChildCPR")]

/-- Models `SolteqSundApp.open_patient`: opens the search dialog (Ctrl+O), waits for
the CPR box, types the SSN and Enter, waits for the result-list entry named
exactly by the SSN, double-clicks it, and finally waits for the tab item
whose name is the SSN with hyphens removed.  Returns the event trace and
either the tick at completion or the first raised error. -/
def open_patient (app : SolteqSundApp) (tree : Tree) (t0 : Nat) :
    List Event × Except RunError Nat :=
  match wait_for_control_default tree t0 "EditControl" cprBoxParams 8 with
  | .error e =>
    ([Event.sendKeys "\x7bCtrl\x7do", Event.waitFor "EditControl" cprBoxParams 8 30],
      .error e)
  | .ok (t1, _) =>
    match wait_for_control_default tree t1 "ListItemControl"
        (SearchParams.mk [("Name", app.ssn)]) 12 with
    | .error e =>
      ([Event.sendKeys "\x7bCtrl\x7do", Event.waitFor "EditControl" cprBoxParams 8 30,
        Event.setFocus "TextBoxChildCPR", Event.sendKeys app.ssn,
        Event.sendKeys "\x7bENTER\x7d",
        Event.waitFor "ListItemControl" (SearchParams.mk [("Name", app.ssn)]) 12 30],
        .error e)
    | .ok (t2, _) =>
      match wait_for_control_default tree t2 "TabItemControl"
          (SearchParams.mk [("Name", stripHyphens app.ssn)]) 4 with
      | .error e =>
        ([Event.sendKeys "\x7bCtrl\x7do", Event.waitFor "EditControl" cprBoxParams 8 30,
          Event.setFocus "TextBoxChildCPR", Event.sendKeys app.ssn,
          Event.sendKeys "\x7bENTER\x7d",
          Event.waitFor "ListItemControl" (SearchParams.mk [("Name", app.ssn)]) 12 30,
          Event.doubleClick,
          Event.waitFor "TabItemControl"
            (SearchParams.mk [("Name", stripHyphens app.ssn)]) 4 30],
          .error e)
      | .ok (t3, _) =>
        ([Event.sendKeys "\x7bCtrl\x7do", Event.waitFor "EditControl" cprBoxParams 8 30,
          Event.setFocus "TextBoxChildCPR", Event.sendKeys app.ssn,
          Event.sendKeys "\x7bENTER\x7d",
          Event.waitFor "ListItemControl" (SearchParams.mk [("Name", app.ssn)]) 12 30,
          Event.doubleClick,
          Event.waitFor "TabItemControl"
            (SearchParams.mk [("Name", stripHyphens app.ssn)]) 4 30],
          .ok t3)

/-- Search parameters of the document-store dialog in `create_journal`. -/
def viewBaseParams : SearchParams := SearchParams.mk [("AutomationId", "frmViewBase")]

/-- The descriptor of the document-store dialog window (`frmViewBase`,
search depth 2). -/
def viewBaseDesc : Descriptor := Descriptor.mk "WindowControl" viewBaseParams 2

/-- Models `SolteqSundApp.create_journal`: triggers generation (Ctrl+Shift+P), waits
for the `frmViewBase` dialog (default timeout 30), clicks the store-to-archive
button, waits up to 60 time-units for the dialog to disappear, then runs the
database verification and raises `ValueError` when it finds nothing. -/
def create_journal (app : SolteqSundApp) (tree : Tree) (db : Database)
    (current_date : String) (t0 : Nat) : List Event × Except RunError Nat :=
  match wait_for_control_default tree t0 "WindowControl" viewBaseParams 2 with
  | .error e =>
    ([Event.sendKeys "\x7bCtrl\x7d\x7bShift\x7dp",
      Event.waitFor "WindowControl" viewBaseParams 2 30], .error e)
  | .ok (t1, _) =>
    match wait_for_control_to_disappear tree t1 "WindowControl" viewBaseParams 2 60 with
    | .error e =>
      ([Event.sendKeys "\x7bCtrl\x7d\x7bShift\x7dp",
        Event.waitFor "WindowControl" viewBaseParams 2 30,
        Event.click "buttonPrintToDocumentStore",
        Event.waitGone "WindowControl" viewBaseParams 2 60], .error e)
    | .ok (t2, _) =>
      if _is_journal_created db app.ssn current_date then
        ([Event.sendKeys "\x7bCtrl\x7d\x7bShift\x7dp",
          Event.waitFor "WindowControl" viewBaseParams 2 30,
          Event.click "buttonPrintToDocumentStore",
          Event.waitGone "WindowControl" viewBaseParams 2 60,
          Event.dbQuery (journalQueryText app.ssn current_date)], .ok t2)
      else
        ([Event.sendKeys "\x7bCtrl\x7d\x7bShift\x7dp",
          Event.waitFor "WindowControl" viewBaseParams 2 30,
          Event.click "buttonPrintToDocumentStore",
          Event.waitGone "WindowControl" viewBaseParams 2 60,
          Event.dbQuery (journalQueryText app.ssn current_date)],
          .error (.valueError "The document was not found in the SQL database."))

/-- A credential from the orchestrator's secret store. -/
structure Credential where
  username : String
  password : String
deriving DecidableEq, Repr

/-- The orchestrator connection: resolves credentials and constants by name. -/
structure OrchestratorConnection where
  get_credential : String → Credential
  get_constant : String → String

/-- The `process` entry point's construction of the driver: app path from the
external config module, credentials and the connection string from the
orchestrator, and `ssn=""`.  The run then invokes `start_application`,
`login`, `open_patient` and `create_journal` on this object. -/
def process (config_APP_PATH : String) (oc : OrchestratorConnection) : SolteqSundApp :=
  SolteqSundApp.mk config_APP_PATH
    (oc.get_credential "solteq_sund").username
    (oc.get_credential "solteq_sund").password
    ""
    (oc.get_constant "solteq_sund_db_connstr")
    none

/-! ## Loop lemmas -/

/-- If the first `n` polls fail and poll `n` succeeds within the fuel budget,
the appearance loop returns the control resolved at poll `n`. -/
theorem waitLoopAux_found_of_first (tree : Tree) (d : Descriptor) :
    ∀ (n fuel tick : Nat), n < fuel →
      (∀ m, m < n → exists00 tree (Control.mk d (tick + m)) = false) →
      exists00 tree (Control.mk d (tick + n)) = true →
      waitLoopAux tree d fuel tick = .found (tick + n) (Control.mk d (tick + n)) := by
  intro n
  induction n with
  | zero =>
    intro fuel tick hn _ hhit
    match fuel, hn with
    | fuel + 1, _ =>
      simp only [Nat.add_zero] at hhit
      simp [waitLoopAux, hhit]
  | succ n ih =>
    intro fuel tick hn hbefore hhit
    match fuel, hn with
    | fuel + 1, hn =>
      have h0 : exists00 tree (Control.mk d (tick + 0)) = false :=
        hbefore 0 (Nat.succ_pos n)
      simp only [Nat.add_zero] at h0
      have hrec := ih fuel (tick + 1) (Nat.lt_of_succ_lt_succ hn)
        (fun m hm => by
          have := hbefore (m + 1) (Nat.succ_lt_succ hm)
          have heq : tick + (m + 1) = tick + 1 + m := by omega
          rwa [heq] at this)
        (by
          have heq : tick + (n + 1) = tick + 1 + n := by omega
          rwa [heq] at hhit)
      have heq : tick + 1 + n = tick + (n + 1) := by omega
      rw [heq] at hrec
      simp [waitLoopAux, h0, hrec]

/-- If every poll within the fuel budget fails, the appearance loop times
out exactly when the fuel runs out. -/
theorem waitLoopAux_timedOut_of_never (tree : Tree) (d : Descriptor) :
    ∀ (fuel tick : Nat),
      (∀ m, m < fuel → exists00 tree (Control.mk d (tick + m)) = false) →
      waitLoopAux tree d fuel tick = .timedOut (tick + fuel) := by
  intro fuel
  induction fuel with
  | zero => intro tick _; simp [waitLoopAux]
  | succ fuel ih =>
    intro tick hnever
    have h0 : exists00 tree (Control.mk d (tick + 0)) = false :=
      hnever 0 (Nat.succ_pos fuel)
    simp only [Nat.add_zero] at h0
    have hrec := ih (tick + 1) (fun m hm => by
      have := hnever (m + 1) (Nat.succ_lt_succ hm)
      have heq : tick + (m + 1) = tick + 1 + m := by omega
      rwa [heq] at this)
    have heq : tick + 1 + fuel = tick + (fuel + 1) := by omega
    rw [heq] at hrec
    simp [waitLoopAux, h0, hrec]

/-- If the appearance loop times out, every poll within the fuel budget
failed. -/
theorem never_of_waitLoopAux_timedOut (tree : Tree) (d : Descriptor) :
    ∀ (fuel tick t : Nat), waitLoopAux tree d fuel tick = .timedOut t →
      ∀ m, m < fuel → exists00 tree (Control.mk d (tick + m)) = false := by
  intro fuel
  induction fuel with
  | zero => intro tick t _ m hm; omega
  | succ fuel ih =>
    intro tick t hrun m hm
    by_cases h0 : exists00 tree (Control.mk d tick) = true
    · simp [waitLoopAux, h0] at hrun
    · have h0f : exists00 tree (Control.mk d tick) = false := by
        revert h0; cases exists00 tree (Control.mk d tick) <;> simp
      match m with
      | 0 => simpa using h0f
      | m + 1 =>
        simp only [waitLoopAux, h0f, Bool.false_eq_true, if_false] at hrun
        have := ih (tick + 1) t hrun m (Nat.lt_of_succ_lt_succ hm)
        have heq : tick + 1 + m = tick + (m + 1) := by omega
        rwa [heq] at this

/-- When the appearance loop returns a control, the return tick lies within
the fuel window and the control is the one resolved at that tick. -/
theorem waitLoopAux_found_bound (tree : Tree) (d : Descriptor) :
    ∀ (fuel tick t : Nat) (c : Control),
      waitLoopAux tree d fuel tick = .found t c →
      tick ≤ t ∧ t < tick + fuel ∧ c = Control.mk d t := by
  intro fuel
  induction fuel with
  | zero => intro tick t c hrun; simp [waitLoopAux] at hrun
  | succ fuel ih =>
    intro tick t c hrun
    by_cases h0 : exists00 tree (Control.mk d tick) = true
    · simp only [waitLoopAux, h0, if_true, WaitOutcome.found.injEq] at hrun
      obtain ⟨ht, hc⟩ := hrun
      exact ⟨by omega, by omega, by rw [← hc, ht]⟩
    · have h0f : exists00 tree (Control.mk d tick) = false := by
        revert h0; cases exists00 tree (Control.mk d tick) <;> simp
      simp only [waitLoopAux, h0f, Bool.false_eq_true, if_false] at hrun
      have := ih (tick + 1) t c hrun
      exact ⟨by omega, by omega, this.2.2⟩

/-- If some poll within the fuel budget succeeds, the appearance loop
returns a control. -/
theorem waitLoopAux_found_of_some (tree : Tree) (d : Descriptor) :
    ∀ (fuel tick : Nat),
      (∃ n, n < fuel ∧ exists00 tree (Control.mk d (tick + n)) = true) →
      ∃ t c, waitLoopAux tree d fuel tick = .found t c := by
  intro fuel
  induction fuel with
  | zero => intro tick ⟨n, hn, _⟩; omega
  | succ fuel ih =>
    intro tick ⟨n, hn, hhit⟩
    by_cases h0 : exists00 tree (Control.mk d tick) = true
    · exact ⟨tick, Control.mk d tick, by simp [waitLoopAux, h0]⟩
    · have h0f : exists00 tree (Control.mk d tick) = false := by
        revert h0; cases exists00 tree (Control.mk d tick) <;> simp
      match n with
      | 0 => simp only [Nat.add_zero] at hhit; rw [hhit] at h0f; cases h0f
      | n + 1 =>
        have hrec := ih (tick + 1) ⟨n, Nat.lt_of_succ_lt_succ hn, by
          have heq : tick + 1 + n = tick + (n + 1) := by omega
          rwa [heq]⟩
        rcases hrec with ⟨t, c, hrc⟩
        exact ⟨t, c, by simp [waitLoopAux, h0f, hrc]⟩

/-- If the first `n` polls still see the control and poll `n` no longer
does, within the fuel budget, the disappearance loop reports gone at poll
`n`. -/
theorem disappearLoopAux_gone_of_first (tree : Tree) (d : Descriptor) :
    ∀ (n fuel tick : Nat), n < fuel →
      (∀ m, m < n → exists00 tree (Control.mk d (tick + m)) = true) →
      exists00 tree (Control.mk d (tick + n)) = false →
      disappearLoopAux tree d fuel tick = .gone (tick + n) := by
  intro n
  induction n with
  | zero =>
    intro fuel tick hn _ hmiss
    match fuel, hn with
    | fuel + 1, _ =>
      simp only [Nat.add_zero] at hmiss
      simp [disappearLoopAux, hmiss]
  | succ n ih =>
    intro fuel tick hn hbefore hmiss
    match fuel, hn with
    | fuel + 1, hn =>
      have h0 : exists00 tree (Control.mk d (tick + 0)) = true :=
        hbefore 0 (Nat.succ_pos n)
      simp only [Nat.add_zero] at h0
      have hrec := ih fuel (tick + 1) (Nat.lt_of_succ_lt_succ hn)
        (fun m hm => by
          have := hbefore (m + 1) (Nat.succ_lt_succ hm)
          have heq : tick + (m + 1) = tick + 1 + m := by omega
          rwa [heq] at this)
        (by
          have heq : tick + (n + 1) = tick + 1 + n := by omega
          rwa [heq] at hmiss)
      have heq : tick + 1 + n = tick + (n + 1) := by omega
      rw [heq] at hrec
      simp [disappearLoopAux, h0, hrec]

/-- If every poll within the fuel budget still sees the control, the
disappearance loop times out exactly when the fuel runs out. -/
theorem disappearLoopAux_timedOut_of_always (tree : Tree) (d : Descriptor) :
    ∀ (fuel tick : Nat),
      (∀ m, m < fuel → exists00 tree (Control.mk d (tick + m)) = true) →
      disappearLoopAux tree d fuel tick = .timedOut (tick + fuel) := by
  intro fuel
  induction fuel with
  | zero => intro tick _; simp [disappearLoopAux]
  | succ fuel ih =>
    intro tick halways
    have h0 : exists00 tree (Control.mk d (tick + 0)) = true :=
      halways 0 (Nat.succ_pos fuel)
    simp only [Nat.add_zero] at h0
    have hrec := ih (tick + 1) (fun m hm => by
      have := halways (m + 1) (Nat.succ_lt_succ hm)
      have heq : tick + (m + 1) = tick + 1 + m := by omega
      rwa [heq] at this)
    have heq : tick + 1 + fuel = tick + (fuel + 1) := by omega
    rw [heq] at hrec
    simp [disappearLoopAux, h0, hrec]

/-- If the disappearance loop times out, every poll within the fuel budget
still saw the control. -/
theorem always_of_disappearLoopAux_timedOut (tree : Tree) (d : Descriptor) :
    ∀ (fuel tick t : Nat), disappearLoopAux tree d fuel tick = .timedOut t →
      ∀ m, m < fuel → exists00 tree (Control.mk d (tick + m)) = true := by
  intro fuel
  induction fuel with
  | zero => intro tick t _ m hm; omega
  | succ fuel ih =>
    intro tick t hrun m hm
    by_cases h0 : exists00 tree (Control.mk d tick) = true
    · match m with
      | 0 => simpa using h0
      | m + 1 =>
        simp only [disappearLoopAux, h0, if_true] at hrun
        have := ih (tick + 1) t hrun m (Nat.lt_of_succ_lt_succ hm)
        have heq : tick + 1 + m = tick + (m + 1) := by omega
        rwa [heq] at this
    · have h0f : exists00 tree (Control.mk d tick) = false := by
        revert h0; cases exists00 tree (Control.mk d tick) <;> simp
      simp [disappearLoopAux, h0f] at hrun

/-! ## Shared helpers for the claim theorems -/

/-- Ticks convert to real time additively: `n` ticks last `n * 0.5`. -/
theorem tickTime_add (t0 n : Nat) :
    tickTime (t0 + n) = tickTime t0 + (n : ℚ) * pollInterval := by
  unfold tickTime pollInterval
  push_cast
  ring

/-- An accessibility tree in which every existence check succeeds. -/
def treeAlways : Tree := fun _ _ => true

/-- An accessibility tree in which every existence check fails. -/
def treeNever : Tree := fun _ _ => false

/-- An accessibility tree in which every control exists at tick 0 only. -/
def treeOnlyAtZero : Tree := fun _ t => t == 0

/-- A concrete driver object for witness runs. -/
def sampleApp : SolteqSundApp :=
  SolteqSundApp.mk "C:/solteq/app.exe" "user" "pw" "010101-0101" "connstr" none

/-- An empty database: the verification query returns zero rows. -/
def dbEmpty : Database := Database.mk [] [] []

/-! ## Claims C1-C4: the bounded wait primitives -/

/-- C1: for every control descriptor and timeout, `wait_for_control`
repeatedly re-resolves the descriptor against the current accessibility tree
at a poll interval of 0.5 time-units (one tick), testing existence with a
zero-wait existence check (`Exists(0, 0)`), and returns the resolved control
handle as soon as an existence check succeeds; the `timeout` parameter
defaults to 30 time-units. -/
theorem C1_wait_for_control_first_success (tree : Tree) (t0 : Nat) (ct : String)
    (p : SearchParams) (depth timeout n : Nat)
    (hn : n < 2 * timeout)
    (hbefore : ∀ m, m < n →
      exists00 tree (Control.mk (Descriptor.mk ct p depth) (t0 + m)) = false)
    (hhit : exists00 tree (Control.mk (Descriptor.mk ct p depth) (t0 + n)) = true) :
    wait_for_control tree t0 ct p depth timeout
        = .ok (t0 + n, Control.mk (Descriptor.mk ct p depth) (t0 + n))
      ∧ tickTime (t0 + n) = tickTime t0 + (n : ℚ) * pollInterval
      ∧ pollInterval = 1 / 2
      ∧ wait_for_control_default tree t0 ct p depth
          = wait_for_control tree t0 ct p depth 30 := by
  refine ⟨?_, tickTime_add t0 n, rfl, rfl⟩
  have h := waitLoopAux_found_of_first tree (Descriptor.mk ct p depth)
    n (2 * timeout) t0 hn hbefore hhit
  unfold wait_for_control waitLoop
  rw [Nat.add_sub_cancel_left, h]

/-- C1 witness: a tree where the control exists immediately yields the handle
resolved at the very first poll. -/
theorem C1_witness :
    wait_for_control treeAlways 0 "WindowControl"
        (SearchParams.mk [("AutomationId", "frmLogin")]) 2 30
        = .ok (0 + 0, Control.mk
            (Descriptor.mk "WindowControl"
              (SearchParams.mk [("AutomationId", "frmLogin")]) 2) (0 + 0))
      ∧ tickTime (0 + 0) = tickTime 0 + ((0 : Nat) : ℚ) * pollInterval
      ∧ pollInterval = 1 / 2
      ∧ wait_for_control_default treeAlways 0 "WindowControl"
            (SearchParams.mk [("AutomationId", "frmLogin")]) 2
          = wait_for_control treeAlways 0 "WindowControl"
              (SearchParams.mk [("AutomationId", "frmLogin")]) 2 30 :=
  C1_wait_for_control_first_success treeAlways 0 "WindowControl"
    (SearchParams.mk [("AutomationId", "frmLogin")]) 2 30 0
    (by decide) (fun m hm => absurd hm (Nat.not_lt_zero m)) rfl

/-- C2: `wait_for_control` raises `TimeoutError` if and only if the timeout
elapses with the control never found by any poll; the error message contains
the search parameters that could not be resolved, and nothing is retried
after the raise (the raised error is the function's final outcome). -/
theorem C2_wait_for_control_timeout_iff (tree : Tree) (t0 : Nat) (ct : String)
    (p : SearchParams) (depth timeout : Nat) :
    ((∃ e, wait_for_control tree t0 ct p depth timeout = .error e) ↔
        (∀ n, n < 2 * timeout →
          exists00 tree (Control.mk (Descriptor.mk ct p depth) (t0 + n)) = false))
      ∧ ((∀ n, n < 2 * timeout →
            exists00 tree (Control.mk (Descriptor.mk ct p depth) (t0 + n)) = false) →
          wait_for_control tree t0 ct p depth timeout
            = .error (.timeoutError (notFoundMsg p)))
      ∧ notFoundMsg p = "Control with parameters " ++ paramsRepr p
          ++ " was not found within the timeout period."
      ∧ (∃ a b, notFoundMsg p = a ++ paramsRepr p ++ b) := by
  have hnever : (∀ n, n < 2 * timeout →
      exists00 tree (Control.mk (Descriptor.mk ct p depth) (t0 + n)) = false) →
      wait_for_control tree t0 ct p depth timeout
        = .error (.timeoutError (notFoundMsg p)) := by
    intro h
    have hrun := waitLoopAux_timedOut_of_never tree (Descriptor.mk ct p depth)
      (2 * timeout) t0 h
    unfold wait_for_control waitLoop
    rw [Nat.add_sub_cancel_left, hrun]
  refine ⟨⟨?_, fun h => ⟨_, hnever h⟩⟩, hnever, rfl,
    ⟨"Control with parameters ", " was not found within the timeout period.", rfl⟩⟩
  rintro ⟨e, he⟩
  unfold wait_for_control waitLoop at he
  rw [Nat.add_sub_cancel_left] at he
  rcases hval : waitLoopAux tree (Descriptor.mk ct p depth) (2 * timeout) t0 with
    ⟨t, c⟩ | t
  · rw [hval] at he; cases he
  · exact never_of_waitLoopAux_timedOut tree (Descriptor.mk ct p depth)
      (2 * timeout) t0 t hval

/-- C2 witness: with a tree where nothing ever exists and timeout 1, the
primitive raises the timeout error carrying the search parameters. -/
theorem C2_witness :
    wait_for_control treeNever 0 "EditControl" cprBoxParams 8 1
      = .error (.timeoutError (notFoundMsg cprBoxParams)) :=
  (C2_wait_for_control_timeout_iff treeNever 0 "EditControl" cprBoxParams 8 1).2.1
    (fun _ _ => rfl)

/-- C3: `wait_for_control` always terminates with a return or a raise; a
descriptor that resolves within the timeout window yields a handle no later
than `timeout + 0.5` after invocation, and a descriptor that never resolves
makes it raise exactly when the configured timeout has elapsed, never
before. -/
theorem C3_wait_for_control_terminates_in_budget (tree : Tree) (t0 : Nat)
    (ct : String) (p : SearchParams) (depth timeout : Nat) :
    ((∃ t c, wait_for_control tree t0 ct p depth timeout = .ok (t, c))
        ∨ (∃ e, wait_for_control tree t0 ct p depth timeout = .error e))
      ∧ ((∃ n, n < 2 * timeout ∧
            exists00 tree (Control.mk (Descriptor.mk ct p depth) (t0 + n)) = true) →
          ∃ t c, wait_for_control tree t0 ct p depth timeout = .ok (t, c))
      ∧ (∀ t c, wait_for_control tree t0 ct p depth timeout = .ok (t, c) →
          tickTime t ≤ tickTime t0 + (timeout : ℚ) + pollInterval)
      ∧ ((∀ n, exists00 tree (Control.mk (Descriptor.mk ct p depth) (t0 + n)) = false) →
          waitLoop tree (Descriptor.mk ct p depth) (t0 + 2 * timeout) t0
              = .timedOut (t0 + 2 * timeout)
            ∧ wait_for_control tree t0 ct p depth timeout
                = .error (.timeoutError (notFoundMsg p))
            ∧ tickTime (t0 + 2 * timeout) = tickTime t0 + (timeout : ℚ)) := by
  refine ⟨?_, ?_, ?_, ?_⟩
  · rcases hval : wait_for_control tree t0 ct p depth timeout with e | ⟨t, c⟩
    · exact Or.inr ⟨e, rfl⟩
    · exact Or.inl ⟨t, c, rfl⟩
  · rintro ⟨n, hn, hhit⟩
    have := waitLoopAux_found_of_some tree (Descriptor.mk ct p depth)
      (2 * timeout) t0 ⟨n, hn, hhit⟩
    rcases this with ⟨t, c, hrun⟩
    refine ⟨t, c, ?_⟩
    unfold wait_for_control waitLoop
    rw [Nat.add_sub_cancel_left, hrun]
  · intro t c hok
    unfold wait_for_control waitLoop at hok
    rw [Nat.add_sub_cancel_left] at hok
    rcases hval : waitLoopAux tree (Descriptor.mk ct p depth) (2 * timeout) t0 with
      ⟨t', c'⟩ | t'
    · rw [hval] at hok
      have hb := waitLoopAux_found_bound tree (Descriptor.mk ct p depth)
        (2 * timeout) t0 t' c' hval
      have ht : t' = t := by cases hok; rfl
      have hlt : t < t0 + 2 * timeout := ht ▸ hb.2.1
      have hq : (t : ℚ) ≤ (t0 : ℚ) + 2 * (timeout : ℚ) := by
        have : (t : ℚ) ≤ ((t0 + 2 * timeout : Nat) : ℚ) := by
          exact_mod_cast Nat.le_of_lt hlt
        push_cast at this
        linarith
      unfold tickTime pollInterval
      linarith
    · rw [hval] at hok; cases hok
  · intro hnever
    have hrun := waitLoopAux_timedOut_of_never tree (Descriptor.mk ct p depth)
      (2 * timeout) t0 (fun m _ => hnever m)
    refine ⟨?_, ?_, ?_⟩
    · unfold waitLoop; rw [Nat.add_sub_cancel_left, hrun]
    · unfold wait_for_control waitLoop
      rw [Nat.add_sub_cancel_left, hrun]
    · unfold tickTime pollInterval
      push_cast
      ring

/-- C3 witness: with a tree where nothing ever exists and timeout 1, the raise
happens exactly at the deadline tick, which is exactly `timeout` after start. -/
theorem C3_witness :
    waitLoop treeNever
        (Descriptor.mk "ListItemControl" (SearchParams.mk [("Name", "010101-0101")]) 12)
        (0 + 2 * 1) 0
        = .timedOut (0 + 2 * 1)
      ∧ wait_for_control treeNever 0 "ListItemControl"
            (SearchParams.mk [("Name", "010101-0101")]) 12 1
          = .error (.timeoutError (notFoundMsg (SearchParams.mk [("Name", "010101-0101")])))
      ∧ tickTime (0 + 2 * 1) = tickTime 0 + ((1 : Nat) : ℚ) :=
  (C3_wait_for_control_terminates_in_budget treeNever 0 "ListItemControl"
    (SearchParams.mk [("Name", "010101-0101")]) 12 1).2.2.2 (fun _ => rfl)

/-- C4: `wait_for_control_to_disappear` is the dual of `wait_for_control`:
it polls at 0.5-tick intervals, returns `true` as soon as an existence check
fails, raises the timeout failure exactly when every check up to the deadline
still succeeds, and never returns any value other than `true`. -/
theorem C4_wait_for_disappear_dual (tree : Tree) (t0 : Nat) (ct : String)
    (p : SearchParams) (depth timeout : Nat) :
    (∀ t b, wait_for_control_to_disappear tree t0 ct p depth timeout = .ok (t, b) →
        b = true)
      ∧ (∀ n, n < 2 * timeout →
          (∀ m, m < n →
            exists00 tree (Control.mk (Descriptor.mk ct p depth) (t0 + m)) = true) →
          exists00 tree (Control.mk (Descriptor.mk ct p depth) (t0 + n)) = false →
          wait_for_control_to_disappear tree t0 ct p depth timeout = .ok (t0 + n, true))
      ∧ ((∃ e, wait_for_control_to_disappear tree t0 ct p depth timeout = .error e) ↔
          (∀ n, n < 2 * timeout →
            exists00 tree (Control.mk (Descriptor.mk ct p depth) (t0 + n)) = true))
      ∧ ((∀ n, n < 2 * timeout →
            exists00 tree (Control.mk (Descriptor.mk ct p depth) (t0 + n)) = true) →
          wait_for_control_to_disappear tree t0 ct p depth timeout
            = .error (.timeoutError (notDisappearMsg p))) := by
  have halways : (∀ n, n < 2 * timeout →
      exists00 tree (Control.mk (Descriptor.mk ct p depth) (t0 + n)) = true) →
      wait_for_control_to_disappear tree t0 ct p depth timeout
        = .error (.timeoutError (notDisappearMsg p)) := by
    intro h
    have hrun := disappearLoopAux_timedOut_of_always tree (Descriptor.mk ct p depth)
      (2 * timeout) t0 h
    unfold wait_for_control_to_disappear disappearLoop
    rw [Nat.add_sub_cancel_left, hrun]
  refine ⟨?_, ?_, ⟨?_, fun h => ⟨_, halways h⟩⟩, halways⟩
  · intro t b hok
    unfold wait_for_control_to_disappear disappearLoop at hok
    rcases hval : disappearLoopAux tree (Descriptor.mk ct p depth)
        (t0 + 2 * timeout - t0) t0 with t' | t'
    · rw [hval] at hok; cases hok; rfl
    · rw [hval] at hok; cases hok
  · intro n hn hbefore hmiss
    have hrun := disappearLoopAux_gone_of_first tree (Descriptor.mk ct p depth)
      n (2 * timeout) t0 hn hbefore hmiss
    unfold wait_for_control_to_disappear disappearLoop
    rw [Nat.add_sub_cancel_left, hrun]
  · rintro ⟨e, he⟩
    unfold wait_for_control_to_disappear disappearLoop at he
    rw [Nat.add_sub_cancel_left] at he
    rcases hval : disappearLoopAux tree (Descriptor.mk ct p depth) (2 * timeout) t0 with
      t' | t'
    · rw [hval] at he; cases he
    · exact always_of_disappearLoopAux_timedOut tree (Descriptor.mk ct p depth)
        (2 * timeout) t0 t' hval

/-- C4 witness: with a tree where nothing exists, disappearance is confirmed
at the very first poll with the value `true`. -/
theorem C4_witness :
    wait_for_control_to_disappear treeNever 0 "WindowControl" viewBaseParams 2 60
      = .ok (0 + 0, true) :=
  (C4_wait_for_disappear_dual treeNever 0 "WindowControl" viewBaseParams 2 60).2.1
    0 (by decide) (fun m hm => absurd hm (Nat.not_lt_zero m)) rfl

/-! ## Claims C5-C7: the workflow steps -/

/-- C5: in `create_journal`, if the document-store dialog (`frmViewBase`)
appeared but never disappears within its 60-time-unit budget, the operation
fails with the timeout error and the database verification is never
performed (no database-query event occurs in the run's trace). -/
theorem C5_create_journal_dialog_stuck (app : SolteqSundApp) (tree : Tree)
    (db : Database) (current_date : String) (t0 t1 : Nat) (c : Control)
    (happear : waitLoop tree viewBaseDesc (t0 + 2 * 30) t0 = .found t1 c)
    (hstuck : ∀ n, n < 2 * 60 →
      exists00 tree (Control.mk viewBaseDesc (t1 + n)) = true) :
    (create_journal app tree db current_date t0).2
        = .error (.timeoutError (notDisappearMsg viewBaseParams))
      ∧ (create_journal app tree db current_date t0).1.all
          (fun e => !(Event.isDbQuery e)) = true := by
  have h1 : wait_for_control_default tree t0 "WindowControl" viewBaseParams 2
      = .ok (t1, c) := by
    unfold wait_for_control_default wait_for_control
    rw [show Descriptor.mk "WindowControl" viewBaseParams 2 = viewBaseDesc from rfl,
      happear]
  have h2 : wait_for_control_to_disappear tree t1 "WindowControl" viewBaseParams 2 60
      = .error (.timeoutError (notDisappearMsg viewBaseParams)) := by
    have hrun := disappearLoopAux_timedOut_of_always tree viewBaseDesc (2 * 60) t1 hstuck
    unfold wait_for_control_to_disappear disappearLoop
    rw [Nat.add_sub_cancel_left,
      show Descriptor.mk "WindowControl" viewBaseParams 2 = viewBaseDesc from rfl, hrun]
  constructor
  · simp only [create_journal, h1, h2]
  · simp only [create_journal, h1, h2]
    decide

/-- C5 witness: a tree in which the dialog always exists makes
`create_journal` time out on the disappearance wait with no database query. -/
theorem C5_witness :
    (create_journal sampleApp treeAlways dbEmpty "02-01-2025" 0).2
        = .error (.timeoutError (notDisappearMsg viewBaseParams))
      ∧ (create_journal sampleApp treeAlways dbEmpty "02-01-2025" 0).1.all
          (fun e => !(Event.isDbQuery e)) = true :=
  C5_create_journal_dialog_stuck sampleApp treeAlways dbEmpty "02-01-2025" 0 0
    (Control.mk viewBaseDesc 0) (by decide) (fun _ _ => rfl)

/-- C6: in `create_journal`, if the document-store dialog disappears within
its 60-time-unit budget but the database query for today's filename and the
subject's stripped identifier returns zero rows, the operation fails with the
distinct `ValueError`, raised after the whole UI event sequence, the database
query included, has run. -/
theorem C6_create_journal_verification_failure (app : SolteqSundApp) (tree : Tree)
    (db : Database) (current_date : String) (t0 t1 t2 : Nat) (c : Control)
    (happear : waitLoop tree viewBaseDesc (t0 + 2 * 30) t0 = .found t1 c)
    (hgone : disappearLoop tree viewBaseDesc (t1 + 2 * 60) t1 = .gone t2)
    (hempty : runJournalQuery db (stripHyphens app.ssn)
        (journalFilename current_date) = []) :
    (create_journal app tree db current_date t0).2
        = .error (.valueError "The document was not found in the SQL database.")
      ∧ (create_journal app tree db current_date t0).1
          = [Event.sendKeys "\x7bCtrl\x7d\x7bShift\x7dp",
              Event.waitFor "WindowControl" viewBaseParams 2 30,
              Event.click "buttonPrintToDocumentStore",
              Event.waitGone "WindowControl" viewBaseParams 2 60,
              Event.dbQuery (journalQueryText app.ssn current_date)] := by
  have h1 : wait_for_control_default tree t0 "WindowControl" viewBaseParams 2
      = .ok (t1, c) := by
    unfold wait_for_control_default wait_for_control
    rw [show Descriptor.mk "WindowControl" viewBaseParams 2 = viewBaseDesc from rfl,
      happear]
  have h2 : wait_for_control_to_disappear tree t1 "WindowControl" viewBaseParams 2 60
      = .ok (t2, true) := by
    have hgone' := hgone
    unfold disappearLoop at hgone'
    unfold wait_for_control_to_disappear disappearLoop
    rw [show Descriptor.mk "WindowControl" viewBaseParams 2 = viewBaseDesc from rfl,
      hgone']
  have hcheck : _is_journal_created db app.ssn current_date = false := by
    unfold _is_journal_created
    rw [hempty]
    rfl
  constructor
  · simp only [create_journal, h1, h2, hcheck, Bool.false_eq_true, if_false]
  · simp only [create_journal, h1, h2, hcheck, Bool.false_eq_true, if_false]

/-- C6 witness: the dialog exists at tick 0 and is gone at tick 1, and the
database is empty, so the run ends in the verification `ValueError` after the
full UI-plus-query event sequence. -/
theorem C6_witness :
    (create_journal sampleApp treeOnlyAtZero dbEmpty "02-01-2025" 0).2
        = .error (.valueError "The document was not found in the SQL database.")
      ∧ (create_journal sampleApp treeOnlyAtZero dbEmpty "02-01-2025" 0).1
          = [Event.sendKeys "\x7bCtrl\x7d\x7bShift\x7dp",
              Event.waitFor "WindowControl" viewBaseParams 2 30,
              Event.click "buttonPrintToDocumentStore",
              Event.waitGone "WindowControl" viewBaseParams 2 60,
              Event.dbQuery (journalQueryText sampleApp.ssn "02-01-2025")] :=
  C6_create_journal_verification_failure sampleApp treeOnlyAtZero dbEmpty
    "02-01-2025" 0 0 1 (Control.mk viewBaseDesc 0) (by decide) (by decide)
    (by simp [runJournalQuery, dbEmpty])

/-- C7: `open_patient` confirms the opened record by waiting, as its last
action, for a tab item whose label is the subject identifier with punctuation
stripped; for the identifier `010101-0101` the awaited tab label is
`0101010101`. -/
theorem C7_open_patient_tab_label (app : SolteqSundApp) (tree : Tree) (t0 t : Nat)
    (hok : (open_patient app tree t0).2 = .ok t) :
    (open_patient app tree t0).1.getLast?
        = some (Event.waitFor "TabItemControl"
            (SearchParams.mk [("Name", stripHyphens app.ssn)]) 4 30)
      ∧ stripHyphens "010101-0101" = "0101010101" := by
  refine ⟨?_, by decide⟩
  unfold open_patient at hok ⊢
  rcases h1 : wait_for_control_default tree t0 "EditControl" cprBoxParams 8 with
    e | ⟨t1, c1⟩
  · rw [h1] at hok
    simp at hok
  · rw [h1] at hok
    dsimp only at hok ⊢
    rcases h2 : wait_for_control_default tree t1 "ListItemControl"
        (SearchParams.mk [("Name", app.ssn)]) 12 with e | ⟨t2, c2⟩
    · rw [h2] at hok
      simp at hok
    · rw [h2] at hok
      dsimp only at hok ⊢
      rcases h3 : wait_for_control_default tree t2 "TabItemControl"
          (SearchParams.mk [("Name", stripHyphens app.ssn)]) 4 with e | ⟨t3, c3⟩
      · rw [h3] at hok
        simp at hok
      · rfl

/-- C7 witness: with an always-resolving tree and the identifier
`010101-0101`, the last event of the successful run is the wait for the tab
labeled `0101010101`. -/
theorem C7_witness :
    (open_patient sampleApp treeAlways 0).1.getLast?
        = some (Event.waitFor "TabItemControl"
            (SearchParams.mk [("Name", stripHyphens sampleApp.ssn)]) 4 30)
      ∧ stripHyphens "010101-0101" = "0101010101" :=
  C7_open_patient_tab_label sampleApp treeAlways 0 0 rfl

/-! ## Claims C8-C10: verification query, interpolation, entry point -/

/-- C8: `_is_journal_created` returns `true` if and only if the database
query returns at least one row, a row matching exactly when its original
filename is the date-derived `Udskrift af journal <dd-mm-yyyy>.pdf`, its
`cpr` is the subject identifier with hyphens removed, and its latest
document-store status (the maximal `Document_HistoryId` for the document) has
`DocumentStoreStatusId = 1`; only emptiness versus non-emptiness of the
result set is consumed. -/
theorem C8_is_journal_created_iff (db : Database) (ssn current_date : String) :
    _is_journal_created db ssn current_date = true ↔
      ∃ ds ∈ db.DocumentStore, ∃ c ∈ db.Child, ∃ dss ∈ db.DocumentStoreStatus,
        c.childId = ds.entityId
          ∧ dss.DocumentId = ds.DocumentId
          ∧ maxHistoryFor db ds.DocumentId = some dss.Document_HistoryId
          ∧ c.cpr = stripHyphens ssn
          ∧ ds.OriginalFilename = journalFilename current_date
          ∧ dss.DocumentStoreStatusId = 1 := by
  have hmain : ∀ (l : List JournalQueryRow),
      ((if l.isEmpty then false else true) = true ↔ ∃ r, r ∈ l) := by
    intro l; cases l <;> simp
  unfold _is_journal_created
  rw [hmain (runJournalQuery db (stripHyphens ssn) (journalFilename current_date))]
  unfold runJournalQuery
  simp only [List.mem_mergeSort, List.mem_flatMap, List.mem_filterMap,
    Option.ite_none_right_eq_some]
  constructor
  · rintro ⟨r, ds, hds, c, hc, dss, hdss, hcond, -⟩
    exact ⟨ds, hds, c, hc, dss, hdss, hcond⟩
  · rintro ⟨ds, hds, c, hc, dss, hdss, hcond⟩
    exact ⟨_, ds, hds, c, hc, dss, hdss, hcond, rfl⟩

/-- A database holding exactly one finalized journal document for the
subject `010101-0101`, dated 02-01-2025. -/
def dbSample : Database :=
  Database.mk
    [DocumentStoreRow.mk 7 3 "Udskrift af journal 02-01-2025.pdf" "unique.pdf"]
    [ChildRow.mk 3 "0101010101"]
    [DocumentStoreStatusRow.mk 7 5 0 0 1]

/-- C8 witness: on a database holding one matching finalized row, the check
returns `true`. -/
theorem C8_witness :
    _is_journal_created dbSample "010101-0101" "02-01-2025" = true :=
  (C8_is_journal_created_iff dbSample "010101-0101" "02-01-2025").2
    ⟨DocumentStoreRow.mk 7 3 "Udskrift af journal 02-01-2025.pdf" "unique.pdf",
      by decide,
      ChildRow.mk 3 "0101010101", by decide,
      DocumentStoreStatusRow.mk 7 5 0 0 1, by decide,
      by decide, by decide, by decide, by decide, by decide, by decide⟩

/-- C9: the SQL text executed by `_is_journal_created` is built by direct
string interpolation with no parameter binding: for every identifier value,
that value with hyphens removed appears verbatim inside the executed query
text (and so does the date-derived filename). -/
theorem C9_query_built_by_interpolation (ssn current_date : String) :
    (∃ a b, journalQueryText ssn current_date = a ++ stripHyphens ssn ++ b)
      ∧ (∃ a b, journalQueryText ssn current_date
          = a ++ journalFilename current_date ++ b) := by
  constructor
  · exact ⟨queryPre, queryMid ++ journalFilename current_date ++ querySuf, by
      simp [journalQueryText, String.append_assoc]⟩
  · exact ⟨queryPre ++ stripHyphens ssn ++ queryMid, querySuf, by
      simp [journalQueryText, String.append_assoc]⟩

/-- C10: the orchestration entry point `process` constructs the driver with
the subject identifier fixed to the empty string, so the patient search, the
tab confirmation (hyphens stripped) and the database verification of every
run all use the empty identifier. -/
theorem C10_process_constructs_empty_ssn (config_APP_PATH : String)
    (oc : OrchestratorConnection) :
    (process config_APP_PATH oc).ssn = ""
      ∧ stripHyphens (process config_APP_PATH oc).ssn = ""
      ∧ (process config_APP_PATH oc)
          = SolteqSundApp.mk config_APP_PATH
              (oc.get_credential "solteq_sund").username
              (oc.get_credential "solteq_sund").password
              "" (oc.get_constant "solteq_sund_db_connstr") none
      ∧ (∀ current_date, journalQueryText (process config_APP_PATH oc).ssn current_date
          = queryPre ++ queryMid ++ journalFilename current_date ++ querySuf) := by
  refine ⟨rfl, rfl, rfl, fun current_date => ?_⟩
  show queryPre ++ stripHyphens "" ++ queryMid ++ journalFilename current_date
      ++ querySuf
    = queryPre ++ queryMid ++ journalFilename current_date ++ querySuf
  rw [show stripHyphens "" = "" from rfl, String.append_empty]

end Solteq
